import Mathlib

/-!
Shallow embedding of the vikstik analog-joystick pipeline from
`keyboards/fingerpunch/pinkiesout/v3_1/keymaps/default/vikstik.c` (and its
header `vikstik.h`).  C machine integers are modelled as `Int`; all the
pipeline values stay far from the 16-bit boundaries, and the only places
where C arithmetic semantics matter (truncated division and remainder) are
modelled explicitly with `Int.tdiv` / `Int.tmod`.  Fallible C operations
(division by zero, out-of-bounds table reads) are modelled with `Option`.
Global mutable state (`js_profile`, `vikstik_calibration`, `vikstik_config`,
the static `px`/`py` of `handle_vikstik_keys_4`) is passed explicitly.
-/

namespace Vikstik

/-- `vikstik_coordinate_t`: a pair of (int16) coordinates. -/
structure Coordinate where
  x_coordinate : Int
  y_coordinate : Int
deriving DecidableEq, Repr

/-- `joystick_profile_t` from vikstik.h. -/
structure JoystickProfile where
  actuation_point : Int
  deadzone_inner : Int
  deadzone_outer : Int
  out_min : Int
  out_max : Int
  raw_min : Int
  raw_max : Int
  stick_timer_ms : Int
deriving DecidableEq, Repr

/-- The `JS_10BIT_SYM8BIT` profile macro from vikstik.h. -/
def JS_10BIT_SYM8BIT : JoystickProfile :=
  { actuation_point := 40
    deadzone_inner := 60
    deadzone_outer := 60
    out_min := -127
    out_max := 127
    raw_min := 0
    raw_max := 1023
    stick_timer_ms := 5 }

/-- `joystick_calibration_t` from vikstik.h. -/
structure JoystickCalibration where
  x_neutral : Int
  y_neutral : Int
  deadzone_inner : Int
  deadzone_outer : Int
  scale_factor : Int
deriving DecidableEq, Repr

/-- `FIXED_POINT_SCALE` from vikstik.h. -/
def FIXED_POINT_SCALE : Int := 1024

/-- `CALIBRATION_SAMPLE_COUNT` from vikstik.h. -/
def CALIBRATION_SAMPLE_COUNT : Int := 100

/-- `ORIENTATION_COUNT` from the `vikstik_up_orientation` enum. -/
def ORIENTATION_COUNT : Int := 4

/-- Enum value `JS_RIGHT` of `vikstik_up_orientation`. -/
def JS_RIGHT : Int := 0
/-- Enum value `JS_UP` of `vikstik_up_orientation`. -/
def JS_UP : Int := 1
/-- Enum value `JS_LEFT` of `vikstik_up_orientation`. -/
def JS_LEFT : Int := 2
/-- Enum value `JS_DOWN` of `vikstik_up_orientation`. -/
def JS_DOWN : Int := 3

/-- `clamp` from vikstik.c: clamp `val` into `[min, max]`. -/
def clamp (val mn mx : Int) : Int :=
  if val < mn then mn else if val > mx then mx else val

/-- `handle_rotation` from vikstik.c, with the global
`vikstik_config.up_orientation` passed explicitly.  The C switch matches the
enum values `JS_LEFT = 2`, `JS_DOWN = 3`, `JS_RIGHT = 0`, and treats
`JS_UP = 1` together with every other value in the default (identity) case. -/
def handle_rotation (up_orientation : Int) (c : Coordinate) : Coordinate :=
  if up_orientation = JS_LEFT then
    -- rotate 90 degrees counterclockwise
    { x_coordinate := -c.y_coordinate, y_coordinate := c.x_coordinate }
  else if up_orientation = JS_DOWN then
    -- rotate 180 degrees counterclockwise
    { x_coordinate := -c.x_coordinate, y_coordinate := -c.y_coordinate }
  else if up_orientation = JS_RIGHT then
    -- rotate 270 degrees counterclockwise
    { x_coordinate := c.y_coordinate, y_coordinate := -c.x_coordinate }
  else
    -- JS_UP and default: do not rotate
    { x_coordinate := c.x_coordinate, y_coordinate := c.y_coordinate }

/-- The orientation whose rotation is the composition of the rotation of `o`
with itself (doubling the rotation angle: 90°↦180°, 180°↦0°, 270°↦180°). -/
def doubled_orientation (o : Int) : Int :=
  if o = JS_LEFT then JS_DOWN
  else if o = JS_DOWN then JS_UP
  else if o = JS_RIGHT then JS_DOWN
  else JS_UP

/-- A key event emitted into the host input stack: `register_code16` or
`unregister_code16` with a (uint16) keycode. -/
inductive KeyEvent where
  | registered (key : Int)
  | unregistered (key : Int)
deriving DecidableEq, Repr

/-- The tri-state sign computed at the top of `handle_axis`:
`(curr > js_profile.actuation_point) - (curr < -js_profile.actuation_point)`,
giving 1 (positive), -1 (negative) or 0 (neutral). -/
def axis_state (p : JoystickProfile) (v : Int) : Int :=
  (if v > p.actuation_point then (1 : Int) else 0) -
    (if v < -p.actuation_point then (1 : Int) else 0)

/-- `handle_axis` from vikstik.c, with the global `js_profile` passed
explicitly; the calls to `register_code16` / `unregister_code16` are modelled
as the list of emitted key events (the C function emits at most one). -/
def handle_axis (p : JoystickProfile) (curr prev pos_key neg_key : Int) :
    List KeyEvent :=
  let curr_state := axis_state p curr
  let prev_state := axis_state p prev
  if curr_state ≠ prev_state then
    if curr_state ≠ 0 then
      [KeyEvent.registered (if curr_state > 0 then pos_key else neg_key)]
    else
      [KeyEvent.unregistered (if prev_state > 0 then pos_key else neg_key)]
  else []

/-- Enum value `VIKSTIK_SM_END` of `vikstik_stick_modes` (the number of
stick modes: analog, wasd, arrows). -/
def VIKSTIK_SM_END : Nat := 3

/-- The mutable module state touched by the mode dispatcher and the edge
mapper: `vikstik_config.mode`, the two `joystick_set_axis` outputs, and the
static `px`/`py` of `handle_vikstik_keys_4` (the per-axis edge state). -/
structure VikstikState where
  mode : Nat
  axis0 : Int
  axis1 : Int
  px : Int
  py : Int
deriving DecidableEq, Repr

/-- `step_stick_mode` from vikstik.c: zero both joystick axes and advance
`vikstik_config.mode` circularly.  The C function does not touch the static
`px`/`py` of `handle_vikstik_keys_4`, so those fields carry over. -/
def step_stick_mode (s : VikstikState) : VikstikState :=
  { s with
    axis0 := 0
    axis1 := 0
    mode := (s.mode + 1) % VIKSTIK_SM_END }

/-- `handle_vikstik_keys_4` from vikstik.c: run `handle_axis` on the y axis
(previous value `py`) and then on the x axis (previous value `px`), then
store the current values into the static `px`/`py`.  Returns the emitted
events together with the updated state. -/
def handle_vikstik_keys_4 (p : JoystickProfile) (s : VikstikState)
    (x y u l d r : Int) : List KeyEvent × VikstikState :=
  (handle_axis p y s.py u d ++ handle_axis p x s.px r l,
   { s with px := x, py := y })

/-- `step_stick_up_orientation` from vikstik.c:
`(get_stick_up_orientation() + step) % ORIENTATION_COUNT` stored back into
the config.  C `%` on int operands is the truncated remainder (`Int.tmod`). -/
def step_stick_up_orientation (up_orientation step : Int) : Int :=
  (up_orientation + step).tmod ORIENTATION_COUNT

/-- `calibrate_vikstik` from vikstik.c, with the sequence of raw x and y
samples read inside its loop passed explicitly (the loop runs
`CALIBRATION_SAMPLE_COUNT` = 100 times).  The running maxima start at 0 as in
the C locals.  The C scale-factor line divides by
`js_profile.raw_max - max_neutral` with no guard; a zero divisor is C
undefined behaviour, modelled as `none`. -/
def calibrate_vikstik (p : JoystickProfile) (xs ys : List Int) :
    Option JoystickCalibration :=
  let ideal_neutral := (p.raw_min + p.raw_max).tdiv 2
  let total_x := xs.foldl (fun a v => a + v) 0
  let total_y := ys.foldl (fun a v => a + v) 0
  let max_neutral_x := xs.foldl (fun m v => if v > m then v else m) 0
  let max_neutral_y := ys.foldl (fun m v => if v > m then v else m) 0
  let x_neutral := total_x.tdiv CALIBRATION_SAMPLE_COUNT
  let y_neutral := total_y.tdiv CALIBRATION_SAMPLE_COUNT
  let max_neutral := if max_neutral_x > max_neutral_y then max_neutral_x else max_neutral_y
  if p.raw_max - max_neutral = 0 then
    none
  else
    let scale_factor := (FIXED_POINT_SCALE * p.out_max).tdiv (p.raw_max - max_neutral)
    let x_drift := |x_neutral - ideal_neutral|
    let y_drift := |y_neutral - ideal_neutral|
    let min_deadzone_inner := if x_drift > y_drift then x_drift else y_drift
    some
      { x_neutral := x_neutral
        y_neutral := y_neutral
        deadzone_inner :=
          if min_deadzone_inner > p.deadzone_inner then min_deadzone_inner
          else p.deadzone_inner
        deadzone_outer := p.deadzone_outer
        scale_factor := scale_factor }

/-- `apply_scaling_and_deadzone` from vikstik.c, with the globals
`vikstik_calibration` and `js_profile` passed explicitly.  The C body centers
the raw values, zeroes both when the squared distance is inside the inner
deadzone and otherwise applies the fixed-point scale, then clamps each axis
to the output range. -/
def apply_scaling_and_deadzone (p : JoystickProfile)
    (cal : JoystickCalibration) (raw_coordinates : Coordinate) : Coordinate :=
  let x0 := raw_coordinates.x_coordinate - cal.x_neutral
  let y0 := raw_coordinates.y_coordinate - cal.y_neutral
  let distance_sq := x0 * x0 + y0 * y0
  let x :=
    if distance_sq < cal.deadzone_inner * cal.deadzone_inner then 0
    else (x0 * cal.scale_factor).tdiv FIXED_POINT_SCALE
  let y :=
    if distance_sq < cal.deadzone_inner * cal.deadzone_inner then 0
    else (y0 * cal.scale_factor).tdiv FIXED_POINT_SCALE
  { x_coordinate := clamp x p.out_min p.out_max
    y_coordinate := clamp y p.out_min p.out_max }

/-- `read_vikstik` from vikstik.c, with the raw ADC sample and the globals
passed explicitly: scale/deadzone, then rotation, then the final clamp of
each axis to the output range. -/
def read_vikstik (p : JoystickProfile) (cal : JoystickCalibration)
    (up_orientation : Int) (raw : Coordinate) : Coordinate :=
  let c1 := apply_scaling_and_deadzone p cal raw
  let c2 := handle_rotation up_orientation c1
  { x_coordinate := clamp c2.x_coordinate p.out_min p.out_max
    y_coordinate := clamp c2.y_coordinate p.out_min p.out_max }

/-- The `stick_direction_t` enum values / the `angle_to_direction` lookup
table from vikstik.c (16 entries, `ANGLE_DIVISIONS`). -/
def angle_to_direction : List Int :=
  [0, 23, 45, 68,       -- DIR_R, DIR_RRU, DIR_RU, DIR_UUR
   90, 113, 135, 158,   -- DIR_U, DIR_UUL, DIR_UL, DIR_ULL
   180, 203, 225, 248,  -- DIR_L, DIR_LLD, DIR_LD, DIR_DDL
   270, 293, 315, 338]  -- DIR_D, DIR_DDR, DIR_DR, DIR_DRR

/-- The octant computed in `calculate_angle_lite`:
`octant = 0; if (y<0) octant = 4; if (x<0) octant += 2; if (|y|>|x|) octant += 1`. -/
def lite_octant (x y : Int) : Nat :=
  (if y < 0 then 4 else 0) + (if x < 0 then 2 else 0) +
    (if |y| > |x| then 1 else 0)

/-- The divisor of the ratio computation in `calculate_angle_lite`:
`abs(y)` when the octant is odd (`octant & 1`), otherwise `abs(x)`. -/
def lite_divisor (x y : Int) : Int :=
  if lite_octant x y % 2 = 1 then |y| else |x|

/-- `calculate_angle_lite` from vikstik.c, with
`get_stick_up_angle() = up_orientation * 90` passed via the config value.
`abs(x) << 8` is `|x| * 256`; the unsigned C division is `Int.tdiv` (both
operands non-negative).  A zero divisor and an out-of-bounds read of
`angle_to_direction[dir_index]` are C undefined behaviour, modelled as
`none`.  C `%` on int is the truncated remainder. -/
def calculate_angle_lite (up_orientation : Int) (coordinates : Coordinate)
    (rotate : Bool) : Option Int :=
  let x := coordinates.x_coordinate
  let y := coordinates.y_coordinate
  if x = 0 ∧ y = 0 then
    some 0  -- Neutral position
  else
    let octant := lite_octant x y
    if lite_divisor x y = 0 then none
    else
      let rat := ((if octant % 2 = 1 then |x| else |y|) * 256).tdiv (lite_divisor x y)
      let fine := if rat > 181 then 2 else if rat > 106 then 1 else 0
      let dir_index := octant * 2 + fine
      match angle_to_direction.get? dir_index with
      | none => none
      | some angle =>
          some (if rotate then (angle - up_orientation * 90 + 360).tmod 360 else angle)

/-- `calculate_raw_direction` from vikstik.c (in the `is_joystick_lite`
build, so `calculate_angle` is `calculate_angle_lite`; the claims under
study never reach the angle computation or are about the lite variant).
`direction` starts at -1 and is assigned only inside the guarded branch;
the 45°-sector comparisons use the `stick_direction_t` constants
`DIR_UUR = 68`, `DIR_UUL = 113`, `DIR_ULL = 158`, `DIR_LLD = 203`,
`DIR_DDL = 248`, `DIR_DDR = 293`, `DIR_DRR = 338`, `DIR_R = 0`,
`DIR_RRU = 23`. -/
def calculate_raw_direction (p : JoystickProfile) (cal : JoystickCalibration)
    (up_orientation : Int) (raw_coordinates : Coordinate) : Option Int :=
  let sc := apply_scaling_and_deadzone p cal raw_coordinates
  if sc.x_coordinate ≠ 0 ∧ sc.y_coordinate ≠ 0 then
    match calculate_angle_lite up_orientation sc false with
    | none => none
    | some angle =>
        if 68 ≤ angle ∧ angle < 113 then some JS_UP
        else if 158 ≤ angle ∧ angle < 203 then some JS_LEFT
        else if 248 ≤ angle ∧ angle < 293 then some JS_DOWN
        else if (338 < angle ∧ angle ≤ 360) ∨ (0 ≤ angle ∧ angle < 23) then
          some JS_RIGHT
        else some (-1)
  else some (-1)

end Vikstik

namespace Vikstik

/-- Helper: clamping 0 to a range containing 0 gives 0. -/
theorem clamp_zero_of_mem (mn mx : Int) (hmn : mn ≤ 0) (hmx : 0 ≤ mx) :
    clamp 0 mn mx = 0 := by
  unfold clamp
  split_ifs <;> omega

/-- Helper: every orientation rotation fixes the origin. -/
theorem handle_rotation_zero (o : Int) :
    handle_rotation o ⟨0, 0⟩ = ⟨0, 0⟩ := by
  unfold handle_rotation
  split_ifs <;> simp

/-- Helper: the parity of the octant is decided solely by the `|y| > |x|`
bit, since the sign bits contribute 4 and 2. -/
theorem lite_octant_parity (x y : Int) :
    lite_octant x y % 2 = if |y| > |x| then 1 else 0 := by
  unfold lite_octant
  split_ifs <;> norm_num

/-- Helper (the true half of the division-safety reasoning): away from the
all-zero coordinate, the divisor selected in `calculate_angle_lite` is
non-zero. -/
theorem lite_divisor_ne_zero (x y : Int) (h : ¬(x = 0 ∧ y = 0)) :
    lite_divisor x y ≠ 0 := by
  unfold lite_divisor
  rw [lite_octant_parity]
  by_cases hgt : |y| > |x|
  · rw [if_pos hgt, if_pos rfl]
    exact (lt_of_le_of_lt (abs_nonneg x) hgt).ne'
  · rw [if_neg hgt]
    have hcond : ¬((0 : Nat) = 1) := by norm_num
    rw [if_neg hcond]
    intro h0
    have hx : x = 0 := abs_eq_zero.mp h0
    have hy1 : |y| ≤ |x| := not_lt.mp hgt
    have hy : y = 0 := by
      rw [h0] at hy1
      exact abs_eq_zero.mp (le_antisymm hy1 (abs_nonneg y))
    exact h ⟨hx, hy⟩

/-- C1: on a poll pair that jumps straight from the negative state (prev =
-50, below -actuation_point = -40) to the positive state (curr = 50, above
+40), `handle_axis` emits only the key-down of the positive key; the key-up
of the still-held negative key demanded by the claim is never emitted, so
both keys of the pair stay registered simultaneously. -/
theorem C1_direct_flip_emits_no_keyup :
    handle_axis JS_10BIT_SYM8BIT 50 (-50) 1 2 = [KeyEvent.registered 1] ∧
      KeyEvent.unregistered 2 ∉ handle_axis JS_10BIT_SYM8BIT 50 (-50) 1 2 := by
  constructor
  · decide
  · decide

set_option maxRecDepth 8000 in
/-- C2: with the `JS_10BIT_SYM8BIT` profile (raw_max = 1023) and all 100
calibration samples reading 1023 on both axes, the observed dynamic range
collapses to zero and the scale-factor line of `calibrate_vikstik` divides
`1024 * 127` by `1023 - 1023 = 0`: there is no guard and no nominal
fallback, so the computation is undefined (modelled `none`). -/
theorem C2_calibrate_divides_by_zero :
    calibrate_vikstik JS_10BIT_SYM8BIT (List.replicate 100 1023)
      (List.replicate 100 1023) = none := by
  decide

/-- C3 counterexample: the claim predicts that the LEFT-orientation rotation
maps (1, 0) to (y, -x) = (0, -1); `handle_rotation` maps it to (0, 1). -/
theorem C3_counterexample_left_rotation :
    handle_rotation JS_LEFT ⟨1, 0⟩ ≠ ⟨0, -1⟩ := by
  decide

/-- C3 (amended): for every coordinate, `handle_rotation` is the identity
for UP, maps (x, y) to (-y, x) for LEFT [90° counterclockwise], to
(-x, -y) for DOWN [180°], and to (y, -x) for RIGHT [270° counterclockwise]
— i.e. the claim's LEFT and RIGHT formulas are exchanged. -/
theorem C3_rotation_formulas (c : Coordinate) :
    handle_rotation JS_UP c = c ∧
      handle_rotation JS_LEFT c = ⟨-c.y_coordinate, c.x_coordinate⟩ ∧
      handle_rotation JS_DOWN c = ⟨-c.x_coordinate, -c.y_coordinate⟩ ∧
      handle_rotation JS_RIGHT c = ⟨c.y_coordinate, -c.x_coordinate⟩ := by
  cases c
  refine ⟨?_, ?_, ?_, ?_⟩ <;>
    simp [handle_rotation, JS_UP, JS_LEFT, JS_DOWN, JS_RIGHT]

/-- C4: stepping the stored orientation by -1 from orientation 0 stores
`(0 + -1) % 4` computed with C's truncated remainder, i.e. -1 — not 3, and
not a value in {0, 1, 2, 3}. -/
theorem C4_step_minus_one_from_zero :
    step_stick_up_orientation 0 (-1) = -1 ∧
      ¬(0 ≤ step_stick_up_orientation 0 (-1)) := by
  constructor
  · decide
  · decide

/-- C5: a sample on the positive x-axis of the scaled coordinate system
(raw (700, 512) with neutral (512, 512) scales to (127, 0)) is classified
-1 by `calculate_raw_direction`, not RIGHT, because the guard requires both
coordinates non-zero; likewise a positive y-axis sample scales to (0, 127)
and yields -1, not UP; and the lite angle of (0, 1) is 45°, two
bucket-widths away from the claimed ≈90°. -/
theorem C5_axis_points_misclassified :
    calculate_raw_direction JS_10BIT_SYM8BIT ⟨512, 512, 60, 60, 1024⟩ JS_UP
        ⟨700, 512⟩ = some (-1) ∧
      calculate_raw_direction JS_10BIT_SYM8BIT ⟨512, 512, 60, 60, 1024⟩ JS_UP
        ⟨512, 700⟩ = some (-1) ∧
      calculate_angle_lite JS_UP ⟨0, 1⟩ false = some 45 := by
  refine ⟨?_, ?_, ?_⟩ <;> decide

/-- C6 counterexample: from a state holding edge state px = 127 (beyond the
actuation point, state POSITIVE), `step_stick_mode` leaves px = 127, whose
tri-state is still non-neutral — the per-axis edge state is not reset. -/
theorem C6_counterexample_stale_edge_state :
    (step_stick_mode ⟨1, 5, 7, 127, 0⟩).px = 127 ∧
      axis_state JS_10BIT_SYM8BIT (step_stick_mode ⟨1, 5, 7, 127, 0⟩).px ≠ 0 := by
  constructor
  · decide
  · decide

/-- C6 (amended): `step_stick_mode` advances the mode circularly by one
(mod 3) and zeroes both output axes, but leaves the per-axis edge state
(px, py) exactly as it was: it is not reset to neutral. -/
theorem C6_step_mode_effects (s : VikstikState) :
    (step_stick_mode s).mode = (s.mode + 1) % 3 ∧
      (step_stick_mode s).axis0 = 0 ∧
      (step_stick_mode s).axis1 = 0 ∧
      (step_stick_mode s).px = s.px ∧
      (step_stick_mode s).py = s.py :=
  ⟨rfl, rfl, rfl, rfl, rfl⟩

/-- Helper: `apply_scaling_and_deadzone` zeroes both axes when the centered
squared distance is inside the inner deadzone. -/
theorem apply_scaling_and_deadzone_inner (p : JoystickProfile)
    (cal : JoystickCalibration) (raw : Coordinate)
    (hmn : p.out_min ≤ 0) (hmx : 0 ≤ p.out_max)
    (hlt : (raw.x_coordinate - cal.x_neutral) * (raw.x_coordinate - cal.x_neutral) +
        (raw.y_coordinate - cal.y_neutral) * (raw.y_coordinate - cal.y_neutral) <
        cal.deadzone_inner * cal.deadzone_inner) :
    apply_scaling_and_deadzone p cal raw = ⟨0, 0⟩ := by
  simp only [apply_scaling_and_deadzone]
  rw [if_pos hlt, if_pos hlt, clamp_zero_of_mem p.out_min p.out_max hmn hmx]

/-- C7: any raw sample whose centered vector lies strictly inside the inner
deadzone (squared magnitude below deadzone_inner²) is mapped by the full
transform — deadzone, scale, clamp, rotate, re-clamp — to (0, 0), for every
calibration, orientation and output range containing 0. -/
theorem C7_deadzone_zero_output (p : JoystickProfile)
    (cal : JoystickCalibration) (up_orientation : Int) (raw : Coordinate)
    (_hdz : 0 ≤ cal.deadzone_inner)
    (hmag : (raw.x_coordinate - cal.x_neutral) ^ 2 +
        (raw.y_coordinate - cal.y_neutral) ^ 2 < cal.deadzone_inner ^ 2)
    (hmn : p.out_min ≤ 0) (hmx : 0 ≤ p.out_max) :
    read_vikstik p cal up_orientation raw = ⟨0, 0⟩ := by
  rw [pow_two, pow_two, pow_two] at hmag
  simp only [read_vikstik]
  rw [apply_scaling_and_deadzone_inner p cal raw hmn hmx hmag,
    handle_rotation_zero]
  simp only []
  rw [clamp_zero_of_mem p.out_min p.out_max hmn hmx]

/-- C7 witness: with the `JS_10BIT_SYM8BIT` profile, calibration neutral
(512, 512), inner deadzone 60 and orientation UP, the raw sample (512, 512)
itself transforms to (0, 0). -/
theorem C7_witness :
    (0 : Int) ≤ 60 ∧
      read_vikstik JS_10BIT_SYM8BIT ⟨512, 512, 60, 60, 255⟩ JS_UP ⟨512, 512⟩ =
        ⟨0, 0⟩ :=
  ⟨by decide,
    C7_deadzone_zero_output JS_10BIT_SYM8BIT ⟨512, 512, 60, 60, 255⟩ JS_UP
      ⟨512, 512⟩ (by decide) (by decide) (by decide) (by decide)⟩

/-- C8: the four orientation rotations compose as a cyclic group of order 4:
applying the rotation of any stored orientation value twice equals applying
the doubled rotation once (LEFT twice is DOWN, DOWN twice is the identity,
RIGHT twice is DOWN), and four applications are the identity. -/
theorem C8_rotations_cyclic :
    (∀ (o : Int) (c : Coordinate),
        handle_rotation o (handle_rotation o c) =
          handle_rotation (doubled_orientation o) c) ∧
      (∀ (o : Int) (c : Coordinate),
        handle_rotation o (handle_rotation o (handle_rotation o
          (handle_rotation o c))) = c) := by
  constructor <;> intro o c <;> cases c <;>
    simp only [handle_rotation, doubled_orientation, JS_LEFT, JS_DOWN,
      JS_RIGHT, JS_UP] <;>
    split_ifs <;> simp_all

/-- C9: at the coordinate (-3, -4) the lite angle quantizer computes octant
7 (y < 0, x < 0, |y| > |x|), ratio (3·256)/4 = 192 > 181, fine adjustment 2
and table index 7·2 + 2 = 16, and reads past the end of the 16-entry
`angle_to_direction` table (modelled `none`) — the division itself is safe
(divisor |y| = 4), but the function is not total. -/
theorem C9_lite_angle_table_overflow :
    calculate_angle_lite JS_UP ⟨-3, -4⟩ false = none := by
  decide

/-- Helper: when the current tri-state is neutral, `handle_axis` never
emits a register (key-down) event. -/
theorem handle_axis_no_register_of_neutral (p : JoystickProfile)
    (curr prev pos_key neg_key : Int) (h : axis_state p curr = 0) :
    ∀ e ∈ handle_axis p curr prev pos_key neg_key,
      ∀ k, e ≠ KeyEvent.registered k := by
  intro e he k
  simp only [handle_axis, h] at he
  by_cases hp : (0 : Int) ≠ axis_state p prev
  · rw [if_pos hp, if_neg (by simp)] at he
    simp only [List.mem_singleton] at he
    subst he
    simp
  · rw [if_neg hp] at he
    simp at he

/-- Helper: returning to a neutral current state from a positive previous
state makes `handle_axis` emit exactly the key-up of the positive key. -/
theorem handle_axis_unregisters_pos (p : JoystickProfile)
    (curr prev pos_key neg_key : Int) (hc : axis_state p curr = 0)
    (hprev : 0 < axis_state p prev) :
    handle_axis p curr prev pos_key neg_key =
      [KeyEvent.unregistered pos_key] := by
  simp only [handle_axis, hc]
  rw [if_pos (by omega : (0 : Int) ≠ axis_state p prev),
    if_neg (by simp), if_pos hprev]

/-- Helper: returning to a neutral current state from a negative previous
state makes `handle_axis` emit exactly the key-up of the negative key. -/
theorem handle_axis_unregisters_neg (p : JoystickProfile)
    (curr prev pos_key neg_key : Int) (hc : axis_state p curr = 0)
    (hprev : axis_state p prev < 0) :
    handle_axis p curr prev pos_key neg_key =
      [KeyEvent.unregistered neg_key] := by
  simp only [handle_axis, hc]
  rw [if_pos (by omega : (0 : Int) ≠ axis_state p prev),
    if_neg (by simp), if_neg (by omega : ¬(axis_state p prev > 0))]

/-- C10: with a non-negative actuation point, an axis value exactly equal to
+actuation_point or -actuation_point has neutral tri-state (the comparisons
are strict); hence a poll arriving exactly at either threshold never emits a
key-down, and arriving there from beyond the threshold emits exactly the
key-up of the held key. -/
theorem C10_exact_actuation_neutral (p : JoystickProfile)
    (hap : 0 ≤ p.actuation_point) (prev pos_key neg_key : Int) :
    axis_state p p.actuation_point = 0 ∧
      axis_state p (-p.actuation_point) = 0 ∧
      (∀ e ∈ handle_axis p p.actuation_point prev pos_key neg_key,
        ∀ k, e ≠ KeyEvent.registered k) ∧
      (∀ e ∈ handle_axis p (-p.actuation_point) prev pos_key neg_key,
        ∀ k, e ≠ KeyEvent.registered k) ∧
      (p.actuation_point < prev →
        handle_axis p p.actuation_point prev pos_key neg_key =
          [KeyEvent.unregistered pos_key]) ∧
      (prev < -p.actuation_point →
        handle_axis p (-p.actuation_point) prev pos_key neg_key =
          [KeyEvent.unregistered neg_key]) := by
  have hc1 : axis_state p p.actuation_point = 0 := by
    unfold axis_state
    split_ifs <;> omega
  have hc2 : axis_state p (-p.actuation_point) = 0 := by
    unfold axis_state
    split_ifs <;> omega
  refine ⟨hc1, hc2,
    handle_axis_no_register_of_neutral p _ prev pos_key neg_key hc1,
    handle_axis_no_register_of_neutral p _ prev pos_key neg_key hc2,
    ?_, ?_⟩
  · intro hgt
    have hprev : 0 < axis_state p prev := by
      unfold axis_state
      split_ifs <;> omega
    exact handle_axis_unregisters_pos p _ prev pos_key neg_key hc1 hprev
  · intro hlt
    have hprev : axis_state p prev < 0 := by
      unfold axis_state
      split_ifs <;> omega
    exact handle_axis_unregisters_neg p _ prev pos_key neg_key hc2 hprev

/-- C10 witness: with the `JS_10BIT_SYM8BIT` profile (actuation point 40),
the value 40 is neutral, and arriving at exactly 40 from 50 emits exactly
the key-up of the positive key. -/
theorem C10_witness :
    axis_state JS_10BIT_SYM8BIT 40 = 0 ∧
      handle_axis JS_10BIT_SYM8BIT 40 50 1 2 = [KeyEvent.unregistered 1] := by
  have h := C10_exact_actuation_neutral JS_10BIT_SYM8BIT (by decide) 50 1 2
  exact ⟨h.1, h.2.2.2.2.1 (by decide)⟩

end Vikstik
